import Mathlib

/-!
Verification development for the 4CAT string-query engine
(backend/abstract/string_query.py).

The Python class StringQuery is shallowly embedded here.  The three
abstract data-source methods (fetch_posts, fetch_threads, fetch_sphinx)
and the relational-database round-trips are modelled as explicit function
parameters gathered in an Adapter structure; Python None-vs-list results
become Option, and uncaught Python exceptions (ZeroDivisionError) become
Except errors.  Machine integers are Int, SQL floats are Rat.
-/

/-- A row returned by the Sphinx full-text index: post id and thread id
(MatchRecord in the spec). -/
structure MatchRecord where
  post_id : Nat
  thread_id : Nat
deriving DecidableEq, Repr

/-- A full post row, fields as in StringQuery.return_cols. -/
structure PostRecord where
  thread_id : Nat
  id : Nat
  timestamp : Int
  body : String
  subject : String
  author : String
  image_file : String
  image_md5 : String
  country_code : String
  country_name : String
deriving DecidableEq, Repr

/-- A row of the thread-stats query
(SELECT id, num_replies FROM threads_... WHERE id IN ... GROUP BY id). -/
structure ThreadStat where
  id : Nat
  num_replies : Int
deriving DecidableEq, Repr

/-- Query parameters of one DataSet, flat key/value bag as delivered to
work(); absent keys are modelled with Option or with the Python falsy
value for fields the code only tests for truthiness. -/
structure QueryParameters where
  min_date : Int
  max_date : Int
  board : String
  body_query : String
  subject_query : String
  full_thread : Bool
  dense_threads : Bool
  dense_percentage : Rat
  dense_length : Int
  random_amount : Option Int
  country_flag : Option String
  dense_country_percentage : Rat
deriving DecidableEq, Repr

/-- An uncaught Python exception escaping the worker. -/
inductive PyError
  | zeroDivision
deriving DecidableEq, Repr

/-- The two exception classes caught around the Sphinx query:
pymysql.OperationalError (timeout) and pymysql.ProgrammingError (crash,
carrying the backend error text). -/
inductive SphinxError
  | timeout
  | crash (e : String)
deriving DecidableEq, Repr

/-- Log severity used by self.log calls. -/
inductive LogLevel
  | info
  | error
deriving DecidableEq, Repr

/-- The log calls of execute_string_query, with the statable payloads
(elapsed wall-clock times are dropped). -/
inductive LogEvent
  | sphinx_finished (results : Nat)
  | sphinx_timeout (body subject : String)
  | sphinx_crash (e : String)
  | running_full_posts_query
  | full_posts_query_finished
deriving DecidableEq, Repr

/-- A positional SQL replacement value. -/
inductive SqlValue
  | int (i : Int)
  | str (s : String)
deriving DecidableEq, Repr

/-- The WHERE predicate of the country query: country_code = code, or
country_code IN (fixed code set) for the symbolic value "europe". -/
inductive CountryPredicate
  | eq (code : String)
  | inSet (codes : List String)
deriving DecidableEq, Repr

/-- The data-source capability interface: the three abstract methods of
StringQuery plus the direct self.db round-trips of the concrete
executors, each modelled as a pure function from the query data the code
passes to the rows the database answers. -/
structure Adapter where
  fetch_posts : List Nat → List PostRecord
  fetch_threads : List Nat → List PostRecord
  fetch_sphinx : String → List SqlValue → Except SphinxError (List MatchRecord)
  fetch_thread_stats : List Nat → List ThreadStat
  db_random_ids_bounded : Int → Int → Int → List Nat
  db_random_ids_unbounded : Int → Int → List Nat
  db_country_posts : CountryPredicate → Int → Int → Bool → List PostRecord
  db_country_pairs : CountryPredicate → Int → Int → Bool → List MatchRecord

/-- The characters escaped by escape_for_sphinx's regular expression
character class ([=\(\)|\-!@~\"&/\\\^\$\=]). -/
def sphinx_special_chars : List Char :=
  ['=', '(', ')', '|', '-', '!', '@', '~', '"', '&', '/', '\\', '^', '$']

/-- Whether a character is special for SphinxQL. -/
def is_sphinx_special (c : Char) : Bool :=
  sphinx_special_chars.contains c

/-- Left-to-right scan of re.sub: each special character is replaced by a
backslash followed by itself, any other character is kept. -/
def escape_chars : List Char → List Char
  | [] => []
  | c :: rest =>
    (if is_sphinx_special c then ['\\', c] else [c]) ++ escape_chars rest

/-- escape_for_sphinx: prefix every SphinxQL special character with a
backslash. -/
def escape_for_sphinx (string : String) : String :=
  String.mk (escape_chars string.data)

/-- The three mutually exclusive search strategies. -/
inductive QueryMode
  | random
  | country
  | string
deriving DecidableEq, Repr

/-- Python truthiness of the random_amount branch condition:
"random_amount" in query_parameters and query_parameters["random_amount"]. -/
def random_selected (q : QueryParameters) : Bool :=
  match q.random_amount with
  | none => false
  | some r => r != 0

/-- Python condition of the country branch:
"country_flag" in query_parameters and query_parameters["country_flag"] != "all". -/
def country_selected (q : QueryParameters) : Bool :=
  match q.country_flag with
  | none => false
  | some c => c != "all"

/-- Mode dispatch of work() (the if/elif/else over the parameters). -/
def select_mode (q : QueryParameters) : QueryMode :=
  if random_selected q then QueryMode.random
  else if country_selected q then QueryMode.country
  else QueryMode.string

/-- Observable outcome of the tail of work(): whether posts_to_csv ran,
the status updates issued there, and the row count passed to
self.query.finish. -/
structure WorkOutcome where
  wrote_file : Bool
  statuses : List String
  num_rows : Nat
deriving DecidableEq, Repr

/-- The tail of work() after the executor returned: `if posts:` writes the
file, `elif posts is not None:` only updates the status, and
num_posts = len(posts) if posts else 0 feeds self.query.finish. -/
def finalize_results (posts : Option (List PostRecord)) : WorkOutcome :=
  match posts with
  | some (p :: rest) =>
    { wrote_file := true
      statuses := ["Writing posts to result file",
                   "Query finished, results are available."]
      num_rows := (p :: rest).length }
  | some [] =>
    { wrote_file := false
      statuses := ["Query finished, no results found."]
      num_rows := 0 }
  | none =>
    { wrote_file := false
      statuses := []
      num_rows := 0 }

/-- Loop body of filter_dense: for every thread-stats row, first the
minimum-length check (num_replies >= length), then
thread_density = keyword_posts[id] / num_replies * 100 (Python raises
ZeroDivisionError when num_replies == 0), then the threshold check; the
qualifying ids are collected in row order. -/
def dense_qualify (thread_ids : List Nat) (percentage : Rat) (length : Int) :
    List ThreadStat → Except PyError (List Nat)
  | [] => Except.ok []
  | total_post :: rest =>
    if total_post.num_replies ≥ length then
      if total_post.num_replies = 0 then Except.error PyError.zeroDivision
      else
        if (thread_ids.count total_post.id : Rat) / (total_post.num_replies : Rat) * 100
            ≥ percentage then
          (dense_qualify thread_ids percentage length rest).map
            (fun qs => total_post.id :: qs)
        else dense_qualify thread_ids percentage length rest
    else dense_qualify thread_ids percentage length rest

/-- filter_dense: Counter(thread_ids) gives per-thread match counts
(List.count here); the thread-stats rows come from the database round-trip
(fetch_stats); keyword is only interpolated into log text. -/
def filter_dense (fetch_stats : List Nat → List ThreadStat)
    (thread_ids : List Nat) (keyword : String) (percentage : Rat)
    (length : Int) : Except PyError (List Nat) :=
  dense_qualify thread_ids percentage length (fetch_stats thread_ids)

/-- Loop body of filter_dense_country: same density rule but with no
minimum-length check before the division. -/
def dense_qualify_country (thread_ids : List Nat) (percentage : Rat) :
    List ThreadStat → Except PyError (List Nat)
  | [] => Except.ok []
  | total_post :: rest =>
    if total_post.num_replies = 0 then Except.error PyError.zeroDivision
    else
      if (thread_ids.count total_post.id : Rat) / (total_post.num_replies : Rat) * 100
          ≥ percentage then
        (dense_qualify_country thread_ids percentage rest).map
          (fun qs => total_post.id :: qs)
      else dense_qualify_country thread_ids percentage rest

/-- filter_dense_country: country is only interpolated into log text. -/
def filter_dense_country (fetch_stats : List Nat → List ThreadStat)
    (thread_ids : List Nat) (country : String) (percentage : Rat) :
    Except PyError (List Nat) :=
  dense_qualify_country thread_ids percentage (fetch_stats thread_ids)

/-- Clause list and replacement list built for the Sphinx query by
execute_string_query (lines 114-145), joined with " AND ". -/
def build_sphinx_where (q : QueryParameters) : String × List SqlValue :=
  let wr : List String × List SqlValue := ([], [])
  let wr := if q.min_date ≠ 0 then
      (wr.1 ++ ["timestamp >= %s"], wr.2 ++ [SqlValue.int q.min_date]) else wr
  let wr := if q.max_date ≠ 0 then
      (wr.1 ++ ["timestamp <= %s"], wr.2 ++ [SqlValue.int q.max_date]) else wr
  let wr := if q.board ≠ "" ∧ q.board ≠ "*" then
      (wr.1 ++ ["board = %s"], wr.2 ++ [SqlValue.str q.board]) else wr
  let mtch : List String :=
    (if q.body_query ≠ "" then ["@body " ++ escape_for_sphinx q.body_query] else []) ++
    (if q.subject_query ≠ "" then ["@subject " ++ escape_for_sphinx q.subject_query] else [])
  let wr := if mtch ≠ [] then
      (wr.1 ++ ["MATCH(%s)"], wr.2 ++ [SqlValue.str (String.intercalate " " mtch)]) else wr
  (String.intercalate " AND " wr.1, wr.2)

/-- Status text of the timeout branch. -/
def timeout_status : String :=
  "Your query timed out. This is likely because it matches too many posts. Try again with a narrower date range or a more specific search query."

/-- Status text of the crash branch. -/
def crash_status : String :=
  "Error during query. 4CAT admins have been notified; try again later."

/-- Status text of the zero-match branch. -/
def no_results_status : String :=
  "Query finished, but no results were found."

/-- Status text after a successful Sphinx query, for n matches. -/
def found_status (n : Nat) : String :=
  "Found " ++ toString n ++ " matches. Collecting post data"

/-- Result of one execute_string_query run: the returned value
(None or a post list), the status updates in order, the log calls in
order, and whether self.sphinx.close() ran. -/
structure StringQueryResult where
  posts : Option (List PostRecord)
  statuses : List String
  logs : List (LogLevel × LogEvent)
  sphinx_closed : Bool
deriving DecidableEq, Repr

/-- Continuation of execute_string_query after a successful Sphinx fetch
(lines 149-203): zero matches return None; otherwise either the exact
post ids are hydrated, or thread expansion runs, optionally narrowed by
filter_dense (whose ZeroDivisionError propagates uncaught). -/
def string_query_after_sphinx (ad : Adapter) (q : QueryParameters)
    (posts : List MatchRecord) : Except PyError StringQueryResult :=
  if posts = [] then
    Except.ok { posts := none
                statuses := ["Searching for matches", found_status posts.length,
                             no_results_status]
                logs := [(LogLevel.info, LogEvent.sphinx_finished posts.length)]
                sphinx_closed := true }
  else if !q.full_thread && !q.dense_threads then
    Except.ok { posts := some (ad.fetch_posts (posts.map MatchRecord.post_id))
                statuses := ["Searching for matches", found_status posts.length,
                             "Post data collected"]
                logs := [(LogLevel.info, LogEvent.sphinx_finished posts.length),
                         (LogLevel.info, LogEvent.running_full_posts_query),
                         (LogLevel.info, LogEvent.full_posts_query_finished)]
                sphinx_closed := true }
  else if q.dense_threads && q.body_query != "" then
    match filter_dense ad.fetch_thread_stats (posts.map MatchRecord.thread_id)
        q.body_query q.dense_percentage q.dense_length with
    | Except.error e => Except.error e
    | Except.ok tids =>
      if tids = [] then
        Except.ok { posts := some []
                    statuses := ["Searching for matches", found_status posts.length,
                                 "Post data collected. Filtering dense threads"]
                    logs := [(LogLevel.info, LogEvent.sphinx_finished posts.length),
                             (LogLevel.info, LogEvent.running_full_posts_query)]
                    sphinx_closed := true }
      else
        Except.ok { posts := some (ad.fetch_threads tids)
                    statuses := ["Searching for matches", found_status posts.length,
                                 "Post data collected. Filtering dense threads",
                                 "Post data collected"]
                    logs := [(LogLevel.info, LogEvent.sphinx_finished posts.length),
                             (LogLevel.info, LogEvent.running_full_posts_query),
                             (LogLevel.info, LogEvent.full_posts_query_finished)]
                    sphinx_closed := true }
  else
    Except.ok { posts := some (ad.fetch_threads (posts.map MatchRecord.thread_id))
                statuses := ["Searching for matches", found_status posts.length,
                             "Post data collected"]
                logs := [(LogLevel.info, LogEvent.sphinx_finished posts.length),
                         (LogLevel.info, LogEvent.running_full_posts_query),
                         (LogLevel.info, LogEvent.full_posts_query_finished)]
                sphinx_closed := true }

/-- execute_string_query: build the Sphinx predicate, query the index,
classify OperationalError (timeout) and ProgrammingError (crash) into
None results with distinct statuses and log severities, close the Sphinx
connection on every branch, then hydrate rows. -/
def execute_string_query (ad : Adapter) (q : QueryParameters) :
    Except PyError StringQueryResult :=
  match ad.fetch_sphinx (build_sphinx_where q).1 (build_sphinx_where q).2 with
  | Except.error SphinxError.timeout =>
    Except.ok { posts := none
                statuses := ["Searching for matches", timeout_status]
                logs := [(LogLevel.info, LogEvent.sphinx_timeout q.body_query q.subject_query)]
                sphinx_closed := true }
  | Except.error (SphinxError.crash e) =>
    Except.ok { posts := none
                statuses := ["Searching for matches", crash_status]
                logs := [(LogLevel.error, LogEvent.sphinx_crash e)]
                sphinx_closed := true }
  | Except.ok posts => string_query_after_sphinx ad q posts

/-- Result of the random and country executors: the returned post list
and the status updates in order (these executors never return None). -/
structure SimpleResult where
  posts : List PostRecord
  statuses : List String
deriving DecidableEq, Repr

/-- execute_random_query: pick random post ids within the date range
(the query shape switches when max_date is not strictly positive), then
hydrate them with fetch_posts. -/
def execute_random_query (ad : Adapter) (q : QueryParameters) : SimpleResult :=
  { posts := ad.fetch_posts
      (if q.max_date > 0 then
        ad.db_random_ids_bounded q.min_date q.max_date (q.random_amount.getD 0)
      else
        ad.db_random_ids_unbounded q.min_date (q.random_amount.getD 0))
    statuses := ["Fetching random posts", "Post data collected"] }

/-- Country codes the web tool offers that lie in Europe, as enumerated
in execute_country_query. -/
def europe_codes : List String :=
  ["GB", "DE", "NL", "RU", "FI", "FR", "RO", "PL", "SE", "NO", "ES", "IE",
   "IT", "SI", "RS", "DK", "HR", "GR", "BG", "BE", "AT", "HU", "CH", "PT",
   "LT", "CZ", "EE", "UY", "LV", "SK", "MK", "UA", "IS", "BA", "CY", "GE",
   "LU", "ME", "AL", "MD", "IM", "EU", "BY", "MC", "AX", "KZ", "AM", "GG",
   "JE", "MT", "FO", "AZ", "LI", "AD"]

/-- Flag resolution of execute_country_query: "europe" expands to the
fixed code set with an IN operator, anything else is an equality test. -/
def country_predicate (flag : String) : CountryPredicate :=
  if flag = "europe" then CountryPredicate.inSet europe_codes
  else CountryPredicate.eq flag

/-- Final status of execute_country_query, for n rows. -/
def country_found_status (n : Nat) : String :=
  "Post data collected. " ++ toString n ++ " country-specific posts found."

/-- execute_country_query, continued: the dense branch fetches
(thread_id, id) pairs, narrows them with filter_dense_country (whose
ZeroDivisionError propagates uncaught) and hydrates threads; the plain
branch returns the fetched rows directly. -/
def execute_country_query (ad : Adapter) (q : QueryParameters) :
    Except PyError SimpleResult :=
  if q.dense_country_percentage ≠ 0 then
    if ad.db_country_pairs (country_predicate (q.country_flag.getD ""))
        q.min_date q.max_date (q.max_date > 0) = [] then
      Except.ok { posts := []
                  statuses := ["Querying database for country-specific posts"] }
    else
      match filter_dense_country ad.fetch_thread_stats
          ((ad.db_country_pairs (country_predicate (q.country_flag.getD ""))
              q.min_date q.max_date (q.max_date > 0)).map MatchRecord.thread_id)
          (q.country_flag.getD "") q.dense_country_percentage with
      | Except.error e => Except.error e
      | Except.ok tids =>
        if tids = [] then
          Except.ok { posts := []
                      statuses := ["Querying database for country-specific posts",
                                   "Post data collected. Filtering dense threads"] }
        else
          Except.ok { posts := ad.fetch_threads tids
                      statuses := ["Querying database for country-specific posts",
                                   "Post data collected. Filtering dense threads",
                                   country_found_status (ad.fetch_threads tids).length] }
  else
    if ad.db_country_posts (country_predicate (q.country_flag.getD ""))
        q.min_date q.max_date (q.max_date > 0) = [] then
      Except.ok { posts := []
                  statuses := ["Querying database for country-specific posts"] }
    else
      Except.ok { posts := ad.db_country_posts (country_predicate (q.country_flag.getD ""))
                    q.min_date q.max_date (q.max_date > 0)
                  statuses := ["Querying database for country-specific posts",
                               country_found_status
                                 (ad.db_country_posts
                                   (country_predicate (q.country_flag.getD ""))
                                   q.min_date q.max_date (q.max_date > 0)).length] }

/-- Projection of an execute_string_query run onto its returned value:
none when an uncaught exception escaped, otherwise the Python return
value (None or a post list). -/
def result_posts (r : Except PyError StringQueryResult) :
    Option (Option (List PostRecord)) :=
  match r with
  | Except.ok res => some res.posts
  | Except.error _ => none

/-- Lexicographic (thread_id, id) order on post rows. -/
def post_le (a b : PostRecord) : Prop :=
  a.thread_id < b.thread_id ∨ (a.thread_id = b.thread_id ∧ a.id ≤ b.id)

/-- A post list is sorted when consecutive rows are non-decreasing in the
lexicographic (thread_id, id) order. -/
def PostsSorted (l : List PostRecord) : Prop :=
  List.Chain' post_le l

/-- escape_chars distributes over concatenation. -/
lemma escape_chars_append (l₁ l₂ : List Char) :
    escape_chars (l₁ ++ l₂) = escape_chars l₁ ++ escape_chars l₂ := by
  induction l₁ with
  | nil => rfl
  | cons c rest ih => simp [escape_chars, ih]

/-- escape_chars leaves character lists without special characters
unchanged. -/
lemma escape_chars_of_no_special (l : List Char)
    (h : ∀ c ∈ l, is_sphinx_special c = false) : escape_chars l = l := by
  induction l with
  | nil => rfl
  | cons c rest ih =>
    have hc : is_sphinx_special c = false := h c (by simp)
    have hr := ih (fun d hd => h d (by simp [hd]))
    simp [escape_chars, hc, hr]

/-- C7: the escaping function prefixes every occurrence of every SphinxQL
special character (= ( ) | - ! @ ~ " & / \ ^ $) with exactly one
backslash: a special character alone escapes to backslash-then-character,
escaping distributes over string concatenation (so this describes every
occurrence), and a string containing no special character is returned
unchanged. -/
theorem escape_for_sphinx_spec :
    (∀ c : Char, is_sphinx_special c = true →
      escape_for_sphinx (String.mk [c]) = String.mk ['\\', c])
    ∧ (∀ s t : String,
        escape_for_sphinx (s ++ t) = escape_for_sphinx s ++ escape_for_sphinx t)
    ∧ (∀ s : String, (∀ c ∈ s.data, is_sphinx_special c = false) →
        escape_for_sphinx s = s) := by
  refine ⟨fun c hc => ?_, fun s t => ?_, fun s hs => ?_⟩
  · simp [escape_for_sphinx, escape_chars, hc]
  · cases s with
    | mk ds =>
      cases t with
      | mk dt =>
        show String.mk (escape_chars (ds ++ dt)) = _
        rw [escape_chars_append]
        rfl
  · cases s with
    | mk ds =>
      show String.mk (escape_chars ds) = String.mk ds
      rw [escape_chars_of_no_special ds hs]

/-- Witness for C7 at concrete inputs: the parenthesis is escaped, the
homomorphism holds on a concrete split, and a plain word is unchanged. -/
theorem escape_for_sphinx_spec_witness :
    escape_for_sphinx (String.mk ['(']) = String.mk ['\\', '(']
    ∧ escape_for_sphinx (String.mk ['a', 'b'] ++ String.mk ['c'])
        = escape_for_sphinx (String.mk ['a', 'b']) ++ escape_for_sphinx (String.mk ['c'])
    ∧ escape_for_sphinx (String.mk ['a', 'b', 'c']) = String.mk ['a', 'b', 'c'] :=
  ⟨escape_for_sphinx_spec.1 '(' (by decide),
   escape_for_sphinx_spec.2.1 (String.mk ['a', 'b']) (String.mk ['c']),
   escape_for_sphinx_spec.2.2 (String.mk ['a', 'b', 'c']) (by decide)⟩

/-- The random branch condition holds exactly when random_amount is a
present, non-zero value. -/
lemma random_selected_iff (q : QueryParameters) :
    random_selected q = true ↔ ∃ r, q.random_amount = some r ∧ r ≠ 0 := by
  cases h : q.random_amount with
  | none => simp [random_selected, h]
  | some r => simp [random_selected, h, bne_iff_ne]

/-- The country branch condition holds exactly when country_flag is a
present value other than "all". -/
lemma country_selected_iff (q : QueryParameters) :
    country_selected q = true ↔ ∃ c, q.country_flag = some c ∧ c ≠ "all" := by
  cases h : q.country_flag with
  | none => simp [country_selected, h]
  | some c => simp [country_selected, h, bne_iff_ne]

/-- A fixed parameter bag whose random_amount is present but zero and
whose country flag is absent. -/
def params_random_zero : QueryParameters :=
  { min_date := 0, max_date := 0, board := "", body_query := "",
    subject_query := "", full_thread := false, dense_threads := false,
    dense_percentage := 0, dense_length := 0, random_amount := some 0,
    country_flag := none, dense_country_percentage := 0 }

/-- C5 counterexample: a job whose random_amount is present (with value
0) does not run the random-sample executor, contradicting the claim that
presence of a random-sample count selects that executor. -/
theorem select_mode_present_zero_counterexample :
    params_random_zero.random_amount = some 0
    ∧ select_mode params_random_zero ≠ QueryMode.random
    ∧ select_mode params_random_zero = QueryMode.string := by
  refine ⟨rfl, ?_, rfl⟩
  intro h
  simp [select_mode, random_selected, country_selected, params_random_zero] at h

/-- C5 (amended): exactly one executor runs per job; the mode is
single-valued with priority random-sample, then attribute-filter, then
full-text, where the random branch requires a present AND non-zero
random_amount, the country branch a present flag other than "all", and
everything else (including no predicates at all) falls to full-text. -/
theorem select_mode_exclusive (q : QueryParameters) :
    (select_mode q = QueryMode.random ↔ ∃ r, q.random_amount = some r ∧ r ≠ 0)
    ∧ (select_mode q = QueryMode.country ↔
        ¬(∃ r, q.random_amount = some r ∧ r ≠ 0)
        ∧ ∃ c, q.country_flag = some c ∧ c ≠ "all")
    ∧ (select_mode q = QueryMode.string ↔
        ¬(∃ r, q.random_amount = some r ∧ r ≠ 0)
        ∧ ¬(∃ c, q.country_flag = some c ∧ c ≠ "all")) := by
  rw [← random_selected_iff q, ← country_selected_iff q]
  unfold select_mode
  by_cases hr : random_selected q = true
  · simp [hr]
  · by_cases hc : country_selected q = true
    · simp [hr, hc]
    · simp [hr, hc]

/-- C8: a present-but-zero random_amount is treated like an absent one:
the random executor is not selected and dispatch falls through to the
country executor (when a country flag other than "all" is present) or
the full-text executor. -/
theorem select_mode_random_zero_falls_through (q : QueryParameters)
    (h : q.random_amount = some 0) :
    select_mode q = select_mode { q with random_amount := none }
    ∧ select_mode q ≠ QueryMode.random
    ∧ (country_selected q = true → select_mode q = QueryMode.country)
    ∧ (country_selected q = false → select_mode q = QueryMode.string) := by
  have hr : random_selected q = false := by simp [random_selected, h]
  have hr' : random_selected { q with random_amount := none } = false := by
    simp [random_selected]
  have hcc : country_selected { q with random_amount := none } = country_selected q := rfl
  by_cases hc : country_selected q = true
  · simp [select_mode, hr, hr', hcc, hc]
  · simp only [Bool.not_eq_true] at hc
    simp [select_mode, hr, hr', hcc, hc]

/-- Witness for C8: with random_amount = 0 present and no country flag,
dispatch selects the full-text executor, as with random_amount absent. -/
theorem select_mode_random_zero_falls_through_witness :
    select_mode params_random_zero
      = select_mode { params_random_zero with random_amount := none }
    ∧ select_mode params_random_zero = QueryMode.string :=
  ⟨(select_mode_random_zero_falls_through params_random_zero rfl).1,
   (select_mode_random_zero_falls_through params_random_zero rfl).2.2.2 rfl⟩

/-- C1 counterexample: when the executor returns an empty-but-non-null
list, work() does NOT write the result artifact (posts_to_csv is guarded
by the truthiness test `if posts:`), refuting the claim that an empty
result still produces a header-only file. -/
theorem finalize_results_empty_counterexample :
    (finalize_results (some [])).wrote_file = false := rfl

/-- C1 (amended): on an empty-but-non-null result work() sets the status
to "no results found", skips writing the result artifact (exactly as in
the null case) and finalizes with row count 0; on a null result it skips
writing with no further status; on a non-empty result it writes and
reports the list length. -/
theorem finalize_results_spec :
    finalize_results (some [])
      = { wrote_file := false
          statuses := ["Query finished, no results found."]
          num_rows := 0 }
    ∧ finalize_results none
      = { wrote_file := false, statuses := [], num_rows := 0 }
    ∧ (∀ (p : PostRecord) (l : List PostRecord),
        finalize_results (some (p :: l))
          = { wrote_file := true
              statuses := ["Writing posts to result file",
                           "Query finished, results are available."]
              num_rows := l.length + 1 }) :=
  ⟨rfl, rfl, fun _ _ => rfl⟩

/-- C2: evaluating both dense filters at a thread whose total reply count
is 0 (with minimum-length threshold 0, so the length check does not
exclude it): the division keyword_posts[id] / num_replies raises
ZeroDivisionError instead of excluding the thread, in the keyword
variant and in the country variant alike. -/
theorem dense_filters_zero_replies_fault :
    filter_dense (fun _ => [{ id := 7, num_replies := 0 }]) [7] "kw" 50 0
      = Except.error PyError.zeroDivision
    ∧ filter_dense_country (fun _ => [{ id := 7, num_replies := 0 }]) [7] "US" 50
      = Except.error PyError.zeroDivision :=
  ⟨rfl, rfl⟩

/-- With minimum-length threshold 0 and non-negative reply counts, the
keyword loop and the country loop agree on every stats list. -/
lemma dense_qualify_country_eq_zero_length (stats : List ThreadStat)
    (thread_ids : List Nat) (percentage : Rat)
    (h : ∀ t ∈ stats, 0 ≤ t.num_replies) :
    dense_qualify_country thread_ids percentage stats
      = dense_qualify thread_ids percentage 0 stats := by
  induction stats with
  | nil => rfl
  | cons t rest ih =>
    have ht : (0 : Int) ≤ t.num_replies := h t (by simp)
    have hrest := ih (fun u hu => h u (by simp [hu]))
    unfold dense_qualify dense_qualify_country
    rw [if_pos (show t.num_replies ≥ 0 from ht)]
    by_cases hz : t.num_replies = 0
    · rw [if_pos hz, if_pos hz]
    · rw [if_neg hz, if_neg hz]
      by_cases hd : (thread_ids.count t.id : Rat) / (t.num_replies : Rat) * 100
          ≥ percentage
      · rw [if_pos hd, if_pos hd, hrest]
      · rw [if_neg hd, if_neg hd, hrest]

/-- C9: on any thread-id list, any thresholds and any thread-stats
result with non-negative reply counts, the country-variant dense filter
returns exactly what the keyword-variant dense filter returns when its
minimum-length threshold is 0 (the keyword and country labels only feed
log text). -/
theorem filter_dense_country_eq_filter_dense
    (fetch_stats : List Nat → List ThreadStat) (thread_ids : List Nat)
    (country keyword : String) (percentage : Rat)
    (h : ∀ t ∈ fetch_stats thread_ids, 0 ≤ t.num_replies) :
    filter_dense_country fetch_stats thread_ids country percentage
      = filter_dense fetch_stats thread_ids keyword percentage 0 :=
  dense_qualify_country_eq_zero_length (fetch_stats thread_ids) thread_ids
    percentage h

/-- Witness for C9 at a concrete input with a positive reply count. -/
theorem filter_dense_country_eq_filter_dense_witness :
    filter_dense_country (fun _ => [{ id := 1, num_replies := 10 }]) [1, 1]
        "US" 20
      = filter_dense (fun _ => [{ id := 1, num_replies := 10 }]) [1, 1]
          "kw" 20 0 :=
  filter_dense_country_eq_filter_dense
    (fun _ => [{ id := 1, num_replies := 10 }]) [1, 1] "US" "kw" 20 (by decide)

/-- A successful keyword-loop run returns a sublist of the stats ids. -/
lemma dense_qualify_sublist (stats : List ThreadStat) (thread_ids : List Nat)
    (percentage : Rat) (length : Int) (out : List Nat)
    (h : dense_qualify thread_ids percentage length stats = Except.ok out) :
    out.Sublist (stats.map ThreadStat.id) := by
  induction stats generalizing out with
  | nil =>
    unfold dense_qualify at h
    cases h
    simp
  | cons t rest ih =>
    unfold dense_qualify at h
    by_cases hlen : t.num_replies ≥ length
    · rw [if_pos hlen] at h
      by_cases hz : t.num_replies = 0
      · rw [if_pos hz] at h
        cases h
      · rw [if_neg hz] at h
        by_cases hd : (thread_ids.count t.id : Rat) / (t.num_replies : Rat) * 100
            ≥ percentage
        · rw [if_pos hd] at h
          cases hrec : dense_qualify thread_ids percentage length rest with
          | error e => rw [hrec] at h; cases h
          | ok qs =>
            rw [hrec] at h
            simp only [Except.map] at h
            cases h
            exact List.Sublist.cons₂ t.id (ih qs hrec)
        · rw [if_neg hd] at h
          exact List.Sublist.cons t.id (ih out h)
    · rw [if_neg hlen] at h
      exact List.Sublist.cons t.id (ih out h)

/-- A successful country-loop run returns a sublist of the stats ids. -/
lemma dense_qualify_country_sublist (stats : List ThreadStat)
    (thread_ids : List Nat) (percentage : Rat) (out : List Nat)
    (h : dense_qualify_country thread_ids percentage stats = Except.ok out) :
    out.Sublist (stats.map ThreadStat.id) := by
  induction stats generalizing out with
  | nil =>
    unfold dense_qualify_country at h
    cases h
    simp
  | cons t rest ih =>
    unfold dense_qualify_country at h
    by_cases hz : t.num_replies = 0
    · rw [if_pos hz] at h
      cases h
    · rw [if_neg hz] at h
      by_cases hd : (thread_ids.count t.id : Rat) / (t.num_replies : Rat) * 100
          ≥ percentage
      · rw [if_pos hd] at h
        cases hrec : dense_qualify_country thread_ids percentage rest with
        | error e => rw [hrec] at h; cases h
        | ok qs =>
          rw [hrec] at h
          simp only [Except.map] at h
          cases h
          exact List.Sublist.cons₂ t.id (ih qs hrec)
      · rw [if_neg hd] at h
        exact List.Sublist.cons t.id (ih out h)

/-- C10: even when the input thread-id list contains duplicates
(multiple matches in the same thread), both dense filters list each
qualifying thread id at most once, provided the thread-stats fetch
returns each thread id at most once. -/
theorem dense_filters_nodup (fetch_stats : List Nat → List ThreadStat)
    (thread_ids : List Nat) (keyword country : String) (percentage : Rat)
    (length : Int)
    (hstats : ((fetch_stats thread_ids).map ThreadStat.id).Nodup) :
    (∀ out, filter_dense fetch_stats thread_ids keyword percentage length
        = Except.ok out → out.Nodup)
    ∧ (∀ out, filter_dense_country fetch_stats thread_ids country percentage
        = Except.ok out → out.Nodup) :=
  ⟨fun out h =>
    List.Nodup.sublist
      (dense_qualify_sublist (fetch_stats thread_ids) thread_ids percentage
        length out h) hstats,
   fun out h =>
    List.Nodup.sublist
      (dense_qualify_country_sublist (fetch_stats thread_ids) thread_ids
        percentage out h) hstats⟩

/-- Witness for C10: a duplicated input thread-id list whose stats rows
are excluded by the length threshold; both filters succeed with a
duplicate-free output. -/
theorem dense_filters_nodup_witness :
    List.Nodup ([] : List Nat) ∧ List.Nodup ([7] : List Nat) :=
  ⟨(dense_filters_nodup (fun _ => [{ id := 7, num_replies := 3 }]) [7, 7, 7]
      "kw" "US" 50 5 (by decide)).1 [] rfl,
   (dense_filters_nodup (fun _ => [{ id := 7, num_replies := 1 }]) [7, 7]
      "kw" "US" 0 0 (by decide)).2 [7]
      (by norm_num [filter_dense_country, dense_qualify_country, Except.map])⟩

/-- C6: a phase-1 timeout (OperationalError) and a phase-1 crash
(ProgrammingError) are classified distinctly but both return None: the
timeout sets the specific guidance status and logs at info level, the
crash sets the generic "admins notified" status and logs at error level
with the backend error text, the two user-facing messages differ, and
the Sphinx connection is closed in both branches before returning. -/
theorem sphinx_failure_classification (ad : Adapter) (q : QueryParameters)
    (e : String) :
    ((∀ w r, ad.fetch_sphinx w r = Except.error SphinxError.timeout) →
      execute_string_query ad q = Except.ok
        { posts := none
          statuses := ["Searching for matches", timeout_status]
          logs := [(LogLevel.info,
                    LogEvent.sphinx_timeout q.body_query q.subject_query)]
          sphinx_closed := true })
    ∧ ((∀ w r, ad.fetch_sphinx w r = Except.error (SphinxError.crash e)) →
      execute_string_query ad q = Except.ok
        { posts := none
          statuses := ["Searching for matches", crash_status]
          logs := [(LogLevel.error, LogEvent.sphinx_crash e)]
          sphinx_closed := true })
    ∧ timeout_status ≠ crash_status := by
  refine ⟨fun h => ?_, fun h => ?_, by decide⟩
  · unfold execute_string_query
    rw [h]
  · unfold execute_string_query
    rw [h]

/-- An adapter whose index connection always times out and whose other
round-trips return nothing. -/
def timeout_adapter : Adapter :=
  { fetch_posts := fun _ => []
    fetch_threads := fun _ => []
    fetch_sphinx := fun _ _ => Except.error SphinxError.timeout
    fetch_thread_stats := fun _ => []
    db_random_ids_bounded := fun _ _ _ => []
    db_random_ids_unbounded := fun _ _ => []
    db_country_posts := fun _ _ _ _ => []
    db_country_pairs := fun _ _ _ _ => [] }

/-- An adapter whose index query always crashes. -/
def crash_adapter : Adapter :=
  { timeout_adapter with
    fetch_sphinx := fun _ _ => Except.error (SphinxError.crash "boom") }

/-- Witness for C6 at concrete adapters for both failure modes. -/
theorem sphinx_failure_classification_witness :
    execute_string_query timeout_adapter params_random_zero = Except.ok
      { posts := none
        statuses := ["Searching for matches", timeout_status]
        logs := [(LogLevel.info, LogEvent.sphinx_timeout "" "")]
        sphinx_closed := true }
    ∧ execute_string_query crash_adapter params_random_zero = Except.ok
      { posts := none
        statuses := ["Searching for matches", crash_status]
        logs := [(LogLevel.error, LogEvent.sphinx_crash "boom")]
        sphinx_closed := true } :=
  ⟨(sphinx_failure_classification timeout_adapter params_random_zero "boom").1
      (fun _ _ => rfl),
   (sphinx_failure_classification crash_adapter params_random_zero "boom").2.1
      (fun _ _ => rfl)⟩

/-- C4: the full-text executor returns None (not an empty list) when the
phase-1 index query yields zero matches, with no phase-2 round-trip; and
it returns an empty non-None list when dense-thread narrowing eliminates
every candidate thread after a non-empty match set. -/
theorem string_query_null_vs_empty :
    (∀ (ad : Adapter) (q : QueryParameters),
      (∀ w r, ad.fetch_sphinx w r = Except.ok []) →
      execute_string_query ad q = Except.ok
        { posts := none
          statuses := ["Searching for matches", found_status 0,
                       no_results_status]
          logs := [(LogLevel.info, LogEvent.sphinx_finished 0)]
          sphinx_closed := true })
    ∧ (∀ (ad : Adapter) (q : QueryParameters) (ms : List MatchRecord),
      (∀ w r, ad.fetch_sphinx w r = Except.ok ms) → ms ≠ [] →
      q.dense_threads = true → q.body_query ≠ "" →
      filter_dense ad.fetch_thread_stats (ms.map MatchRecord.thread_id)
          q.body_query q.dense_percentage q.dense_length = Except.ok [] →
      execute_string_query ad q = Except.ok
        { posts := some []
          statuses := ["Searching for matches", found_status ms.length,
                       "Post data collected. Filtering dense threads"]
          logs := [(LogLevel.info, LogEvent.sphinx_finished ms.length),
                   (LogLevel.info, LogEvent.running_full_posts_query)]
          sphinx_closed := true }) := by
  constructor
  · intro ad q h
    unfold execute_string_query
    rw [h]
    rfl
  · intro ad q ms h hms hdense hbody hfd
    unfold execute_string_query
    rw [h]
    show string_query_after_sphinx ad q ms = _
    unfold string_query_after_sphinx
    have h1 : (!q.full_thread && !q.dense_threads) = false := by
      simp [hdense]
    have h2 : (q.dense_threads && q.body_query != "") = true := by
      simp [hdense, hbody]
    rw [if_neg hms, h1, h2, hfd]
    rfl

/-- An adapter whose index query finds nothing. -/
def empty_sphinx_adapter : Adapter :=
  { timeout_adapter with fetch_sphinx := fun _ _ => Except.ok [] }

/-- A dense-thread query whose single candidate thread is too short for
the minimum-length threshold, so narrowing eliminates every thread. -/
def params_dense : QueryParameters :=
  { min_date := 0, max_date := 0, board := "", body_query := "kw",
    subject_query := "", full_thread := false, dense_threads := true,
    dense_percentage := 50, dense_length := 5, random_amount := none,
    country_flag := none, dense_country_percentage := 0 }

/-- An adapter with one index match in thread 1, whose thread stats say
the thread has 3 replies. -/
def dense_adapter : Adapter :=
  { timeout_adapter with
    fetch_sphinx := fun _ _ => Except.ok [{ post_id := 5, thread_id := 1 }]
    fetch_thread_stats := fun _ => [{ id := 1, num_replies := 3 }] }

/-- Witness for C4: zero matches give None; a non-empty match set whose
only thread is eliminated by the dense filter gives an empty list. -/
theorem string_query_null_vs_empty_witness :
    execute_string_query empty_sphinx_adapter params_random_zero = Except.ok
      { posts := none
        statuses := ["Searching for matches", found_status 0,
                     no_results_status]
        logs := [(LogLevel.info, LogEvent.sphinx_finished 0)]
        sphinx_closed := true }
    ∧ execute_string_query dense_adapter params_dense = Except.ok
      { posts := some []
        statuses := ["Searching for matches", found_status 1,
                     "Post data collected. Filtering dense threads"]
        logs := [(LogLevel.info, LogEvent.sphinx_finished 1),
                 (LogLevel.info, LogEvent.running_full_posts_query)]
        sphinx_closed := true } :=
  ⟨string_query_null_vs_empty.1 empty_sphinx_adapter params_random_zero
      (fun _ _ => rfl),
   string_query_null_vs_empty.2 dense_adapter params_dense
      [{ post_id := 5, thread_id := 1 }] (fun _ _ => rfl) (by decide)
      rfl (by decide) rfl⟩

/-- A post row in thread 1. -/
def post_t1 : PostRecord :=
  { thread_id := 1, id := 3, timestamp := 0, body := "", subject := "",
    author := "", image_file := "", image_md5 := "", country_code := "",
    country_name := "" }

/-- A post row in thread 2. -/
def post_t2 : PostRecord :=
  { thread_id := 2, id := 5, timestamp := 0, body := "", subject := "",
    author := "", image_file := "", image_md5 := "", country_code := "",
    country_name := "" }

/-- The two sample rows are in ascending (thread_id, id) order. -/
lemma posts_sorted_t1_t2 : PostsSorted [post_t1, post_t2] :=
  List.chain'_cons.mpr ⟨Or.inl (by decide), List.chain'_singleton post_t2⟩

/-- An adapter that returns its rows in descending thread order. -/
def unsorted_adapter : Adapter :=
  { timeout_adapter with
    fetch_posts := fun _ => [post_t2, post_t1]
    fetch_threads := fun _ => [post_t2, post_t1]
    fetch_sphinx := fun _ _ =>
      Except.ok [{ post_id := 5, thread_id := 2 }, { post_id := 3, thread_id := 1 }] }

/-- C3 counterexample: with an adapter that returns rows in descending
thread order, the full-text executor hands that descending list through
unchanged, so the final PostRecord sequence is NOT non-decreasing in
(threadId, postId): the core never sorts. -/
theorem executor_output_not_sorted :
    result_posts (execute_string_query unsorted_adapter params_random_zero)
      = some (some [post_t2, post_t1])
    ∧ ¬ PostsSorted [post_t2, post_t1] :=
  ⟨rfl, fun hsort => by
    have h : post_le post_t2 post_t1 := (List.chain'_cons.mp hsort).1
    unfold post_le at h
    simp [post_t1, post_t2] at h⟩

/-- Every successful execute_string_query run returns None, an empty
list, a fetch_posts result or a fetch_threads result, verbatim. -/
lemma string_query_posts_shape (ad : Adapter) (q : QueryParameters)
    (r : StringQueryResult) (h : execute_string_query ad q = Except.ok r) :
    r.posts = none ∨ r.posts = some []
    ∨ (∃ ids, r.posts = some (ad.fetch_posts ids))
    ∨ (∃ tids, r.posts = some (ad.fetch_threads tids)) := by
  unfold execute_string_query at h
  split at h
  · cases h; left; rfl
  · cases h; left; rfl
  · unfold string_query_after_sphinx at h
    split at h
    · cases h; left; rfl
    · split at h
      · cases h
        right; right; left
        exact ⟨_, rfl⟩
      · split at h
        · split at h
          · exact Except.noConfusion h
          · split at h
            · cases h
              right; left; rfl
            · cases h
              right; right; right
              exact ⟨_, rfl⟩
        · cases h
          right; right; right
          exact ⟨_, rfl⟩

/-- Every successful execute_country_query run returns an empty list, a
db_country_posts result or a fetch_threads result, verbatim. -/
lemma country_query_posts_shape (ad : Adapter) (q : QueryParameters)
    (r : SimpleResult) (h : execute_country_query ad q = Except.ok r) :
    r.posts = []
    ∨ (∃ p lo hi b, r.posts = ad.db_country_posts p lo hi b)
    ∨ (∃ tids, r.posts = ad.fetch_threads tids) := by
  unfold execute_country_query at h
  split at h
  · split at h
    · cases h; left; rfl
    · split at h
      · exact Except.noConfusion h
      · split at h
        · cases h; left; rfl
        · cases h
          right; right
          exact ⟨_, rfl⟩
  · split at h
    · cases h; left; rfl
    · cases h
      right; left
      exact ⟨_, _, _, _, rfl⟩

/-- C3 (amended): the engine performs no sort of its own; every executor
returns the adapter's rows in the adapter's order, so the final sequence
is non-decreasing in (threadId, postId) exactly when the adapter's fetch
operations already return rows in that order (as their docstrings
promise), for all three executors. -/
theorem executors_preserve_adapter_order (ad : Adapter)
    (hp : ∀ ids, PostsSorted (ad.fetch_posts ids))
    (ht : ∀ tids, PostsSorted (ad.fetch_threads tids))
    (hc : ∀ p lo hi b, PostsSorted (ad.db_country_posts p lo hi b)) :
    ∀ q : QueryParameters,
      (∀ r l, execute_string_query ad q = Except.ok r → r.posts = some l →
        PostsSorted l)
      ∧ PostsSorted (execute_random_query ad q).posts
      ∧ (∀ r, execute_country_query ad q = Except.ok r → PostsSorted r.posts) := by
  intro q
  refine ⟨fun r l hr hl => ?_, hp _, fun r hr => ?_⟩
  · rcases string_query_posts_shape ad q r hr with h | h | ⟨ids, h⟩ | ⟨tids, h⟩
    · rw [h] at hl; cases hl
    · rw [h] at hl
      cases hl
      exact List.chain'_nil
    · rw [h] at hl
      cases hl
      exact hp ids
    · rw [h] at hl
      cases hl
      exact ht tids
  · rcases country_query_posts_shape ad q r hr with h | ⟨p, lo, hi, b, h⟩ | ⟨tids, h⟩
    · rw [h]; exact List.chain'_nil
    · rw [h]; exact hc p lo hi b
    · rw [h]; exact ht tids

/-- An adapter whose fetches always answer in ascending
(thread_id, id) order. -/
def sorted_adapter : Adapter :=
  { timeout_adapter with
    fetch_posts := fun _ => [post_t1, post_t2]
    fetch_threads := fun _ => [post_t1]
    fetch_sphinx := fun _ _ =>
      Except.ok [{ post_id := 3, thread_id := 1 }] }

/-- Witness for the amended C3: a sorted adapter yields a sorted
full-text result at a concrete query. -/
theorem executors_preserve_adapter_order_witness :
    PostsSorted [post_t1, post_t2] :=
  ((executors_preserve_adapter_order sorted_adapter
      (fun _ => posts_sorted_t1_t2)
      (fun _ => List.chain'_singleton post_t1)
      (fun _ _ _ _ => List.chain'_nil)
      params_random_zero).1) _ [post_t1, post_t2] rfl rfl
